import Mathlib

/-!
Shallow embedding of `src/screenComponents/viewport3d.cpp` (EmptyEpsilon):
the 3D viewport renderer.  Vectors and matrices are modelled over an
arbitrary linear ordered field `K` (instantiated at `ℚ` for executable
checks and at `ℝ` when exact trigonometric constants are needed); glm
matrices are stored column-major, exactly as glm does.
-/

namespace Viewport3D

variable {K : Type} [LinearOrderedField K]

/-- 2-component vector (glm::vec2). -/
structure Vec2 (K : Type) where
  x : K
  y : K
deriving DecidableEq, Repr

/-- 3-component vector (glm::vec3). -/
structure Vec3 (K : Type) where
  x : K
  y : K
  z : K
deriving DecidableEq, Repr

/-- 4-component vector (glm::vec4). -/
structure Vec4 (K : Type) where
  x : K
  y : K
  z : K
  w : K
deriving DecidableEq, Repr

/-- 4x4 matrix, stored as four columns (glm::mat4 is column-major). -/
structure Mat4 (K : Type) where
  c0 : Vec4 K
  c1 : Vec4 K
  c2 : Vec4 K
  c3 : Vec4 K
deriving DecidableEq, Repr

/-- Componentwise subtraction of 3-vectors. -/
def v3sub (a b : Vec3 K) : Vec3 K := ⟨a.x - b.x, a.y - b.y, a.z - b.z⟩

/-- Componentwise addition of 3-vectors. -/
def v3add (a b : Vec3 K) : Vec3 K := ⟨a.x + b.x, a.y + b.y, a.z + b.z⟩

/-- glm::length2: squared Euclidean norm of a 3-vector. -/
def length2 (v : Vec3 K) : K := v.x * v.x + v.y * v.y + v.z * v.z

/-- Componentwise subtraction of 2-vectors. -/
def v2sub (a b : Vec2 K) : Vec2 K := ⟨a.x - b.x, a.y - b.y⟩

/-- Componentwise addition of 2-vectors. -/
def v2add (a b : Vec2 K) : Vec2 K := ⟨a.x + b.x, a.y + b.y⟩

/-- Matrix-vector product `m * v` (glm semantics, columns weighted by
the components of `v`). -/
def mulVec (m : Mat4 K) (v : Vec4 K) : Vec4 K :=
  ⟨m.c0.x * v.x + m.c1.x * v.y + m.c2.x * v.z + m.c3.x * v.w,
   m.c0.y * v.x + m.c1.y * v.y + m.c2.y * v.z + m.c3.y * v.w,
   m.c0.z * v.x + m.c1.z * v.y + m.c2.z * v.z + m.c3.z * v.w,
   m.c0.w * v.x + m.c1.w * v.y + m.c2.w * v.z + m.c3.w * v.w⟩

/-- Matrix-matrix product `m * n`. -/
def mulMat (m n : Mat4 K) : Mat4 K :=
  ⟨mulVec m n.c0, mulVec m n.c1, mulVec m n.c2, mulVec m n.c3⟩

/-- Rotation about the x axis with the given cosine and sine
(glm::rotate(·, angle, {1,0,0}) builds this factor). -/
def rotXMat (c s : K) : Mat4 K :=
  ⟨⟨1, 0, 0, 0⟩, ⟨0, c, s, 0⟩, ⟨0, -s, c, 0⟩, ⟨0, 0, 0, 1⟩⟩

/-- Rotation about the z axis with the given cosine and sine
(glm::rotate(·, angle, {0,0,1}) builds this factor). -/
def rotZMat (c s : K) : Mat4 K :=
  ⟨⟨c, s, 0, 0⟩, ⟨-s, c, 0, 0⟩, ⟨0, 0, 1, 0⟩, ⟨0, 0, 0, 1⟩⟩

/-- Scaling matrix (glm::scale factor). -/
def scaleMat (sx sy sz : K) : Mat4 K :=
  ⟨⟨sx, 0, 0, 0⟩, ⟨0, sy, 0, 0⟩, ⟨0, 0, sz, 0⟩, ⟨0, 0, 0, 1⟩⟩

/-- Translation matrix (glm::translate factor). -/
def translateMat (tx ty tz : K) : Mat4 K :=
  ⟨⟨1, 0, 0, 0⟩, ⟨0, 1, 0, 0⟩, ⟨0, 0, 1, 0⟩, ⟨tx, ty, tz, 1⟩⟩

/-- glm::perspective (right-handed, GL depth range [-1,1]).
`tanHalfFovy` stands for `tan(glm::radians(fovy) / 2)`, which glm
computes internally from the field-of-view angle. -/
def glmPerspective (tanHalfFovy aspect zNear zFar : K) : Mat4 K :=
  ⟨⟨1 / (aspect * tanHalfFovy), 0, 0, 0⟩,
   ⟨0, 1 / tanHalfFovy, 0, 0⟩,
   ⟨0, 0, -(zFar + zNear) / (zFar - zNear), -1⟩,
   ⟨0, 0, -(2 * zFar * zNear) / (zFar - zNear), 0⟩⟩

/-- The view matrix built in `GuiViewport3D::onDraw` (viewport3d.cpp,
lines 176-182).  The code composes, via glm right-multiplication:
a 90-degree rotation about x, a (1,1,-1) scale, a rotation about x by
`-camera_pitch`, a rotation about z by `-(camera_yaw + 90)`, and a
translation by `-camera_position`.  `cnp`/`snp` are the cosine/sine of
`radians(-camera_pitch)` and `cny`/`sny` those of
`radians(-(camera_yaw + 90))`; cos 90 = 0 and sin 90 = 1 are exact. -/
def mkViewMatrix (cnp snp cny sny : K) (camera_position : Vec3 K) : Mat4 K :=
  let m := rotXMat (0 : K) 1
  let m := mulMat m (scaleMat 1 1 (-1))
  let m := mulMat m (rotXMat cnp snp)
  let m := mulMat m (rotZMat cny sny)
  mulMat m (translateMat (-camera_position.x) (-camera_position.y) (-camera_position.z))

/-- The GUI element's rectangle: position and size in virtual
coordinates. -/
structure Rect (K : Type) where
  position : Vec2 K
  size : Vec2 K
deriving DecidableEq, Repr

/-- `GuiViewport3D::worldToScreen` (viewport3d.cpp, lines 466-487):
apply the view matrix, then the projection matrix, divide by w, map
x and y from [-1,1] to [0,1] (flipping y), scale into the rect, and
return the negated view-space z as the depth component. -/
def worldToScreen (rect : Rect K) (view_matrix projection_matrix : Mat4 K)
    (world : Vec3 K) : Vec3 K :=
  let view_pos := mulVec view_matrix ⟨world.x, world.y, world.z, 1⟩
  let pos := mulVec projection_matrix view_pos
  let pos : Vec4 K := ⟨pos.x / pos.w, pos.y / pos.w, pos.z / pos.w, pos.w / pos.w⟩
  let rx := pos.x * (1 / 2 : K) + 1 / 2
  let ry := pos.y * (1 / 2 : K) + 1 / 2
  ⟨rect.position.x + rect.size.x * rx,
   rect.position.y + rect.size.y * (1 - ry),
   -view_pos.z⟩

/-- std::clamp(v, lo, hi). -/
def clampK (v lo hi : K) : K := if v < lo then lo else if hi < v then hi else v

/-- A zone entity as seen by the renderer: the `Zone` component's
skybox name, fade distance and outline polygon, together with the
entity's `sp::Transform` position. -/
structure ZoneEnt (K : Type) where
  skybox : String
  skybox_fade_distance : K
  outline : List (Vec2 K)
  position : Vec2 K

/-- The skybox-selection loop of `GuiViewport3D::onDraw`
(viewport3d.cpp, lines 194-208).  `inside` and `d2e` stand for the
engine helpers `insidePolygon` and `distanceToEdge` (not part of this
repository's sources); `skybox_name` is the already-computed global
skybox name, which is also the initial value of the local name.
Returns the final `(local_skybox_name, local_skybox_factor)` pair. -/
def selectSkybox (inside : List (Vec2 K) → Vec2 K → Bool)
    (d2e : List (Vec2 K) → Vec2 K → K)
    (skybox_name : String) (camera_xy : Vec2 K) :
    List (ZoneEnt K) → String × K
  | [] => (skybox_name, 0)
  | zone :: rest =>
    if zone.skybox = "" then
      selectSkybox inside d2e skybox_name camera_xy rest
    else
      let pos := v2sub zone.position camera_xy
      if inside zone.outline pos then
        ("skybox/" ++ zone.skybox,
          if zone.skybox_fade_distance ≤ 0 then 1
          else clampK (d2e zone.outline pos / zone.skybox_fade_distance) 0 1)
      else
        selectSkybox inside d2e skybox_name camera_xy rest

/-- The space-dust respawn test of `GuiViewport3D::onDraw`
(viewport3d.cpp, line 306): the squared distance of the pair's first
endpoint from the dust center is above `maxDustDist`^2 = 500^2 or
below `minDustDist`^2 = 100^2. -/
def dustOutside (dust_center : Vec3 K) (p : Vec3 K × Vec3 K) : Prop :=
  500 * 500 < length2 (v3sub p.1 dust_center) ∨
    length2 (v3sub p.1 dust_center) < 100 * 100

instance (dust_center : Vec3 K) (p : Vec3 K × Vec3 K) :
    Decidable (dustOutside dust_center p) := by
  unfold dustOutside; infer_instance

/-- The space-dust update loop of `GuiViewport3D::onDraw`
(viewport3d.cpp, lines 300-312).  The `space_dust` vector of 2N
positions is modelled as a list of endpoint pairs (the loop steps by
two and tests only the even index).  `rnd` is the stream of values
produced by successive calls to the engine's `random(-500, 500)`;
`k` is the index of the next unconsumed value (three are consumed per
respawn, one per axis).  Returns the updated pairs, the next stream
index, and the `update_required` flag. -/
def dustUpdate (dust_center : Vec3 K) (rnd : Nat → K) :
    List (Vec3 K × Vec3 K) → Nat → Bool → List (Vec3 K × Vec3 K) × Nat × Bool
  | [], k, dirty => ([], k, dirty)
  | p :: rest, k, dirty =>
    if dustOutside dust_center p then
      let np := v3add dust_center ⟨rnd k, rnd (k + 1), rnd (k + 2)⟩
      let r := dustUpdate dust_center rnd rest (k + 3) true
      ((np, np) :: r.1, r.2.1, r.2.2)
    else
      let r := dustUpdate dust_center rnd rest k dirty
      (p :: r.1, r.2.1, r.2.2)

/-- One emitter entry of an `EngineEmitter` component: local offset,
color and base scale. -/
structure EmitterDef (K : Type) where
  position : Vec3 K
  color : Vec3 K
  scale : K

/-- The mutable per-entity `EngineEmitter` component state. -/
structure EngineEmitter (K : Type) where
  emitters : List (EmitterDef K)
  last_engine_particle_time : K

/-- One call to `ParticleEngine::spawn(pstart, pend, cstart, cend,
scale, tstart, life)`. -/
structure ParticleSpawn (K : Type) where
  pstart : Vec3 K
  pend : Vec3 K
  cstart : Vec3 K
  cend : Vec3 K
  scale : K
  tstart : K
  life : K
deriving DecidableEq

/-- The engine's `rotateVec2(v, angle_degrees)` with the rotation's
cosine and sine supplied explicitly (the helper itself is engine code,
not part of this repository's sources). -/
def rotateVec2 (c s : K) (v : Vec2 K) : Vec2 K :=
  ⟨v.x * c - v.y * s, v.x * s + v.y * c⟩

/-- The engine-particle emission step for one entity of the
`Query<EngineEmitter, Transform, ImpulseEngine>` loop in
`GuiViewport3D::onDraw` (viewport3d.cpp, lines 261-278).
`elapsed` is `engine->getElapsedTime()`; `rotC`/`rotS` are the cosine
and sine of the transform's rotation; `tpos` its position; `throttle`
is `impulse.actual`.  Returns the spawned particles and the updated
component state. -/
def emitEngineParticles (elapsed : K) (rotC rotS : K) (tpos : Vec2 K)
    (throttle : K) (ee : EngineEmitter K) :
    List (ParticleSpawn K) × EngineEmitter K :=
  if throttle ≠ 0 then
    let engine_scale := |throttle|
    if 1 / 10 < elapsed - ee.last_engine_particle_time then
      (ee.emitters.map fun ed =>
        let offset := ed.position
        let pos2d := v2add tpos (rotateVec2 rotC rotS ⟨offset.x, offset.y⟩)
        let pos3d : Vec3 K := ⟨pos2d.x, pos2d.y, offset.z⟩
        ⟨pos3d, pos3d, ed.color, ed.color, ed.scale * engine_scale, 0, 5⟩,
        ⟨ee.emitters, elapsed⟩)
    else ([], ee)
  else ([], ee)

/-- A callsign-bearing entity as seen by the HUD pass: the callsign,
the transform position, the optional `sp::Physics` size, and whether
the entity is `my_spaceship`. -/
structure CallsignEnt (K : Type) where
  callsign : String
  position : Vec2 K
  physicsSize : Option (Vec2 K)
  isMySpaceship : Bool

/-- One `renderer.drawText` call: screen position, text, size and the
alpha component of the u8vec4 color (255,255,255,alpha), as passed. -/
structure TextDraw (K : Type) where
  x : K
  y : K
  text : String
  size : K
  alpha : K

/-- The label height used by the callsign loop (viewport3d.cpp, lines
434-436): `radius` starts at 300 and is replaced by the x component of
the physics size when the entity has a `sp::Physics` component. -/
def callsignRadius (e : CallsignEnt K) : K :=
  match e.physicsSize with
  | some sz => sz.x
  | none => 300

/-- The per-entity body of the callsign loop in
`GuiViewport3D::onDraw` (viewport3d.cpp, lines 430-444), minus the
`entity == my_spaceship` skip which happens at the loop level:
pick the radius from the physics size (300 when absent), project the
world point at that height, cull on depth, and fade size and alpha. -/
def callsignLabel (rect : Rect K) (view_matrix projection_matrix : Mat4 K)
    (e : CallsignEnt K) : Option (TextDraw K) :=
  let radius : K := callsignRadius e
  let screen_position :=
    worldToScreen rect view_matrix projection_matrix
      ⟨e.position.x, e.position.y, radius⟩
  if screen_position.z < 0 then none
  else if 10000 < screen_position.z then none
  else
    let distance_factor := 1 - screen_position.z / 10000
    some ⟨screen_position.x, screen_position.y, e.callsign,
      20 * distance_factor, 128 * distance_factor⟩

/-- glm::identity<glm::mat4>(). -/
def identityMat : Mat4 K :=
  ⟨⟨1, 0, 0, 0⟩, ⟨0, 1, 0, 0⟩, ⟨0, 0, 1, 0⟩, ⟨0, 0, 0, 1⟩⟩

/-- Observable effects of one `GuiViewport3D::onDraw` frame, in
program order: sound-listener update, depth/stencil clear, the starbox
draw (with the selected global/local skybox names and blend factor),
particle spawns, the shader-registry view-matrix update, the generic
3D render pass, the particle render pass, the space-dust buffer upload
and draw, the target reticle, text draws, and the final glViewport
restore. -/
inductive Effect (K : Type) where
  | setListener
  | clearBuffers
  | drawStarbox (globalName localName : String) (factor : K)
  | spawnParticle (p : ParticleSpawn K)
  | updateProjectionView
  | render3D (aspect fov : K)
  | renderParticles
  | uploadDust (data : List (Vec3 K))
  | drawDust (velocity : Vec2 K)
  | drawReticle (model_matrix : Mat4 K) (radius : K)
  | drawText (t : TextDraw K)
  | restoreViewport

/-- The persistent space-dust state: the static `space_dust` vector
(as endpoint pairs) and the position range of the GPU buffer. -/
structure DustState (K : Type) where
  particles : List (Vec3 K × Vec3 K)
  buffer : List (Vec3 K)

/-- Flatten endpoint pairs back into the 2N-element position array
layout of the GPU buffer. -/
def flattenPairs : List (Vec3 K × Vec3 K) → List (Vec3 K)
  | [] => []
  | p :: rest => p.1 :: p.2 :: flattenPairs rest

/-- The space-dust section of `GuiViewport3D::onDraw` (viewport3d.cpp,
lines 288-338): update the particle pairs, re-upload the position
sub-range of the GPU buffer only when `update_required`, then draw the
line list with the dust velocity uniform. -/
def spacedustPass (dust_center : Vec3 K) (dust_vector : Vec2 K)
    (rnd : Nat → K) (st : DustState K) : List (Effect K) × DustState K :=
  let upd := dustUpdate dust_center rnd st.particles 0 false
  let particles2 := upd.1
  let update_required := upd.2.2
  ((if update_required then [Effect.uploadDust (flattenPairs particles2)] else [])
     ++ [Effect.drawDust dust_vector],
   ⟨particles2, if update_required then flattenPairs particles2 else st.buffer⟩)

/-- One entity of the `Query<EngineEmitter, Transform, ImpulseEngine>`
loop: the emitter component, the transform's rotation (cosine/sine)
and position, and the impulse engine's `actual` value. -/
structure EngineEnt (K : Type) where
  ee : EngineEmitter K
  rotC : K
  rotS : K
  position : Vec2 K
  impulse_actual : K

/-- The engine-particle loop of `GuiViewport3D::onDraw`
(viewport3d.cpp, lines 261-278) over all matching entities: collects
the spawn calls and the updated `EngineEmitter` components. -/
def enginePass (elapsed : K) :
    List (EngineEnt K) → List (Effect K) × List (EngineEmitter K)
  | [] => ([], [])
  | ent :: rest =>
    let r := emitEngineParticles elapsed ent.rotC ent.rotS ent.position
      ent.impulse_actual ent.ee
    let r2 := enginePass elapsed rest
    (r.1.map Effect.spawnParticle ++ r2.1, r.2 :: r2.2)

/-- The player target, when `my_spaceship` has a `Target` component
with a live entity: its optional transform position and optional
physics size. -/
structure TargetInfo (K : Type) where
  transformPos : Option (Vec2 K)
  physicsSize : Option (Vec2 K)

/-- The target-reticle section of `GuiViewport3D::onDraw`
(viewport3d.cpp, lines 340-376): translate the model matrix to the
target position when a transform exists, and take the radius from the
physics size (300 when absent). -/
def reticlePass (target : Option (TargetInfo K)) : List (Effect K) :=
  match target with
  | none => []
  | some tgt =>
    let model_matrix :=
      match tgt.transformPos with
      | some p => mulMat identityMat (translateMat p.x p.y 0)
      | none => identityMat
    let radius : K :=
      match tgt.physicsSize with
      | some sz => sz.x
      | none => 300
    [Effect.drawReticle model_matrix radius]

/-- The callsign loop of `GuiViewport3D::onDraw` (viewport3d.cpp,
lines 428-445): skip `my_spaceship`, then draw each entity's label as
computed by `callsignLabel`. -/
def callsignPass (rect : Rect K) (view_matrix projection_matrix : Mat4 K) :
    List (CallsignEnt K) → List (Effect K)
  | [] => []
  | e :: rest =>
    if e.isMySpaceship then
      callsignPass rect view_matrix projection_matrix rest
    else
      match callsignLabel rect view_matrix projection_matrix e with
      | none => callsignPass rect view_matrix projection_matrix rest
      | some t =>
        Effect.drawText t :: callsignPass rect view_matrix projection_matrix rest

/-- The heading-ring loop of `GuiViewport3D::onDraw` (viewport3d.cpp,
lines 447-461): for each angle 0,30,...,330, a world point 2500 units
from the ship in direction `vec2FromAngle(angle - 90)` is projected,
and the heading number is drawn at size 30, alpha 128, whenever the
depth is positive.  `vfa` stands for the engine helper
`vec2FromAngle` (unit vector for an angle in degrees). -/
def headingPass (rect : Rect K) (view_matrix projection_matrix : Mat4 K)
    (shipPos : Vec2 K) (vfa : K → Vec2 K) : List (Effect K) :=
  (List.range 12).filterMap fun i =>
    let angle : Nat := 30 * i
    let dir := vfa ((angle : K) - 90)
    let world_pos := v2add shipPos ⟨dir.x * 2500, dir.y * 2500⟩
    let screen_pos := worldToScreen rect view_matrix projection_matrix
      ⟨world_pos.x, world_pos.y, 0⟩
    if 0 < screen_pos.z then
      some (Effect.drawText ⟨screen_pos.x, screen_pos.y, toString angle, 30, 128⟩)
    else none

/-- All inputs read by one `GuiViewport3D::onDraw` frame.  The
trigonometric values (`cnp`, `snp`: cos/sin of `radians(-camera_pitch)`;
`cny`, `sny`: cos/sin of `radians(-(camera_yaw + 90))`; `tanHalfFov`:
tan of half the field-of-view in radians) and the engine helpers
`inside`/`d2e`/`vfa` (`insidePolygon`, `distanceToEdge`,
`vec2FromAngle`) and the `random(-500,500)` stream `rnd` are supplied
as values, since they come from engine code outside this repository. -/
structure DrawInput (K : Type) where
  rect : Rect K
  camera_position : Vec3 K
  camera_fov : K
  tanHalfFov : K
  cnp : K
  snp : K
  cny : K
  sny : K
  hasGameGlobalInfo : Bool
  default_skybox : String
  inside : List (Vec2 K) → Vec2 K → Bool
  d2e : List (Vec2 K) → Vec2 K → K
  zones : List (ZoneEnt K)
  elapsedTime : K
  engineEntities : List (EngineEnt K)
  show_spacedust : Bool
  hasMySpaceship : Bool
  myTransformPos : Option (Vec2 K)
  myVelocity : Option (Vec2 K)
  target : Option (TargetInfo K)
  show_callsigns : Bool
  callsignEntities : List (CallsignEnt K)
  show_headings : Bool
  vfa : K → Vec2 K
  rnd : Nat → K

/-- The mutable state surviving across frames: the space-dust state
and the `EngineEmitter` components (whose last-emission timestamps the
frame updates). -/
structure DrawState (K : Type) where
  dust : DustState K
  engineEmitters : List (EngineEmitter K)

/-- `GuiViewport3D::onDraw` (viewport3d.cpp, lines 134-464) as a
function from inputs and persistent state to the frame's effect trace
and the new state.  A zero-width rect skips the frame entirely
(lines 136-145); otherwise the passes run in program order: listener,
clear, starbox, engine particles, shader-registry update, generic 3D
render, particle render, space dust (if enabled and a ship exists),
reticle (if a target exists), callsigns, headings, viewport restore. -/
def onDraw (inp : DrawInput K) (st : DrawState K) :
    List (Effect K) × DrawState K :=
  if inp.rect.size.x = 0 then ([], st)
  else
    let aspect := inp.rect.size.x / inp.rect.size.y
    let projection_matrix := glmPerspective inp.tanHalfFov aspect 1 25000
    let view_matrix := mkViewMatrix inp.cnp inp.snp inp.cny inp.sny inp.camera_position
    let skybox_name :=
      if inp.hasGameGlobalInfo then "skybox/" ++ inp.default_skybox
      else "skybox/default"
    let camera_xy : Vec2 K := ⟨inp.camera_position.x, inp.camera_position.y⟩
    let sel := selectSkybox inp.inside inp.d2e skybox_name camera_xy inp.zones
    let eng := enginePass inp.elapsedTime inp.engineEntities
    let dustRes :=
      if inp.show_spacedust ∧ inp.hasMySpaceship then
        let dust_vector : Vec2 K :=
          match inp.myVelocity with
          | some v => ⟨v.x / 100, v.y / 100⟩
          | none => ⟨0, 0⟩
        let dust_center : Vec3 K :=
          match inp.myTransformPos with
          | some p => ⟨p.x, p.y, 0⟩
          | none => inp.camera_position
        spacedustPass dust_center dust_vector inp.rnd st.dust
      else ([], st.dust)
    let callsignEffects :=
      if inp.show_callsigns then
        callsignPass inp.rect view_matrix projection_matrix inp.callsignEntities
      else []
    let headingEffects :=
      if inp.show_headings ∧ inp.hasMySpaceship then
        match inp.myTransformPos with
        | some p => headingPass inp.rect view_matrix projection_matrix p inp.vfa
        | none => []
      else []
    ([Effect.setListener, Effect.clearBuffers,
      Effect.drawStarbox skybox_name sel.1 sel.2]
      ++ eng.1
      ++ [Effect.updateProjectionView, Effect.render3D aspect inp.camera_fov,
          Effect.renderParticles]
      ++ dustRes.1
      ++ reticlePass inp.target
      ++ callsignEffects
      ++ headingEffects
      ++ [Effect.restoreViewport],
     ⟨dustRes.2, eng.2⟩)

/-- The depth gate and distance fade applied to an already-projected
screen point, as the callsign loop performs them (viewport3d.cpp,
lines 438-443). -/
def labelFromScreen (screen_position : Vec3 K) (cs : String) :
    Option (TextDraw K) :=
  if screen_position.z < 0 then none
  else if 10000 < screen_position.z then none
  else
    some ⟨screen_position.x, screen_position.y, cs,
      20 * (1 - screen_position.z / 10000),
      128 * (1 - screen_position.z / 10000)⟩

/-- Modelled from the spec (§4.2), for comparison against the code's
`worldToScreen`: transform the world point by view then projection,
perspective-divide, map the [-1,1] clip x/y to [0,1] with the vertical
axis flipped, scale into the viewport rectangle, and return as the
third component the camera-space depth (the negated view-space z,
positive in front of the camera). -/
def worldToScreen_specModel (rect : Rect K)
    (view_matrix projection_matrix : Mat4 K) (world : Vec3 K) : Vec3 K :=
  let view_pos := mulVec view_matrix ⟨world.x, world.y, world.z, 1⟩
  let clip := mulVec projection_matrix view_pos
  let ndcX := clip.x / clip.w
  let ndcY := clip.y / clip.w
  let normX := (ndcX + 1) / 2
  let normY := 1 - (ndcY + 1) / 2
  ⟨rect.position.x + rect.size.x * normX,
   rect.position.y + rect.size.y * normY,
   -view_pos.z⟩

end Viewport3D

open Viewport3D

/-- Claim C5: `worldToScreen` transforms the world point by the view
matrix then the projection matrix, divides by w, maps the resulting
[-1,1] x/y to [0,1] with the vertical axis flipped, scales into the
viewport rectangle, and returns as its third component the camera-space
depth (the negated view-space z, positive in front of the camera), not
the normalized device z.  Formalised as: the code's `worldToScreen`
coincides with the step-by-step model written from the spec's words.
The embedding is a pure function of its arguments, matching the claim
that the function mutates no state. -/
theorem C5_worldToScreen_refines_spec {K : Type} [LinearOrderedField K]
    (rect : Rect K) (view_matrix projection_matrix : Mat4 K)
    (world : Vec3 K) :
    worldToScreen rect view_matrix projection_matrix world
      = worldToScreen_specModel rect view_matrix projection_matrix world := by
  simp only [worldToScreen, worldToScreen_specModel, Vec3.mk.injEq]
  refine ⟨by ring, by ring, ?_⟩
  simp

/-- Claim C2 as stated is false on the code: with camera position
(0,0,0), yaw 0, pitch 0, FOV 60 degrees (half-angle tangent
tan(pi/6)) and an 800x600 viewport at the origin, the world point
(0,1000,0) lies exactly 90 degrees to the camera's side (view-space
(1000,0,0)), so `worldToScreen` gives it depth 0, which is not
positive; in particular it is not a centered point with positive
depth. -/
theorem C2_counterexample :
    ¬ ((worldToScreen (⟨⟨0, 0⟩, ⟨800, 600⟩⟩ : Rect ℝ)
          (mkViewMatrix 1 0 0 (-1) ⟨0, 0, 0⟩)
          (glmPerspective (Real.tan (Real.pi / 6)) (800 / 600) 1 25000)
          ⟨0, 1000, 0⟩).x = 400 ∧
       (worldToScreen (⟨⟨0, 0⟩, ⟨800, 600⟩⟩ : Rect ℝ)
          (mkViewMatrix 1 0 0 (-1) ⟨0, 0, 0⟩)
          (glmPerspective (Real.tan (Real.pi / 6)) (800 / 600) 1 25000)
          ⟨0, 1000, 0⟩).y = 300 ∧
       0 < (worldToScreen (⟨⟨0, 0⟩, ⟨800, 600⟩⟩ : Rect ℝ)
          (mkViewMatrix 1 0 0 (-1) ⟨0, 0, 0⟩)
          (glmPerspective (Real.tan (Real.pi / 6)) (800 / 600) 1 25000)
          ⟨0, 1000, 0⟩).z) := by
  intro h
  have hz := h.2.2
  norm_num [worldToScreen, mkViewMatrix, mulMat,
    mulVec, rotXMat, rotZMat, scaleMat, translateMat, glmPerspective] at hz

/-- Claim C2, amended: in the code's convention, yaw 0 looks along
world +X, not +Y.  With camera position (0,0,0), yaw 0, pitch 0, FOV
60 degrees and an 800x600 viewport at the origin, `worldToScreen`
applied to the world point (1000,0,0) (directly forward) returns the
exact viewport center (400,300) with positive depth 1000. -/
theorem C2_amended_forward_is_plus_x :
    worldToScreen (⟨⟨0, 0⟩, ⟨800, 600⟩⟩ : Rect ℝ)
        (mkViewMatrix 1 0 0 (-1) ⟨0, 0, 0⟩)
        (glmPerspective (Real.tan (Real.pi / 6)) (800 / 600) 1 25000)
        ⟨1000, 0, 0⟩ = ⟨400, 300, 1000⟩ := by
  norm_num [worldToScreen, mkViewMatrix, mulMat,
    mulVec, rotXMat, rotZMat, scaleMat, translateMat, glmPerspective]

/-- Claim C6: for every callsign label, entities whose projected depth
is negative or greater than 10000 are not drawn; a drawn label's alpha
is 128 * (1 - depth/10000) and its text size 20 * (1 - depth/10000);
in particular alpha is 128 at depth 0 and 0 at depth 10000. -/
theorem C6_callsign_fade {K : Type} [LinearOrderedField K]
    (rect : Rect K) (vm pm : Mat4 K) (e : CallsignEnt K) (sp : Vec3 K)
    (hsp : sp = worldToScreen rect vm pm
      ⟨e.position.x, e.position.y, callsignRadius e⟩) :
    (sp.z < 0 ∨ 10000 < sp.z → callsignLabel rect vm pm e = none) ∧
    (0 ≤ sp.z → sp.z ≤ 10000 →
      callsignLabel rect vm pm e
        = some ⟨sp.x, sp.y, e.callsign,
            20 * (1 - sp.z / 10000), 128 * (1 - sp.z / 10000)⟩) ∧
    (sp.z = 0 →
      callsignLabel rect vm pm e = some ⟨sp.x, sp.y, e.callsign, 20, 128⟩) ∧
    (sp.z = 10000 →
      callsignLabel rect vm pm e = some ⟨sp.x, sp.y, e.callsign, 0, 0⟩) := by
  subst hsp
  simp only [callsignLabel]
  refine ⟨?_, ?_, ?_, ?_⟩
  · rintro (h | h)
    · rw [if_pos h]
    · rcases lt_or_le (worldToScreen rect vm pm
        ⟨e.position.x, e.position.y, callsignRadius e⟩).z 0 with hneg | hpos
      · rw [if_pos hneg]
      · rw [if_neg (not_lt.mpr hpos), if_pos h]
  · intro h0 h1
    rw [if_neg (not_lt.mpr h0), if_neg (not_lt.mpr h1)]
  · intro h
    rw [if_neg (not_lt.mpr (le_of_eq h.symm)),
      if_neg (not_lt.mpr (by rw [h]; norm_num))]
    simp [h]
  · intro h
    rw [if_neg (not_lt.mpr (by rw [h]; norm_num)),
      if_neg (not_lt.mpr (le_of_eq h))]
    simp [h]

/-- Witness for C6 at a concrete input: with identity view and
projection matrices the world point (0,0,300) has view z = 300, hence
projected depth -300 < 0, so the label is skipped. -/
theorem C6_callsign_fade_witness :
    callsignLabel (⟨⟨0, 0⟩, ⟨800, 600⟩⟩ : Rect ℚ) identityMat identityMat
      ⟨"A", ⟨0, 0⟩, none, false⟩ = none :=
  (C6_callsign_fade (⟨⟨0, 0⟩, ⟨800, 600⟩⟩ : Rect ℚ) identityMat identityMat
      ⟨"A", ⟨0, 0⟩, none, false⟩ _ rfl).1
    (Or.inl (by norm_num [worldToScreen, identityMat, mulVec, callsignRadius]))

/-- Claim C10: the world point the callsign loop passes to
`worldToScreen` has its height (third coordinate) equal to the
entity's radius: the x component of the physics size when a physics
component exists, 300 otherwise; the label is the depth-gated,
distance-faded text at that projected point. -/
theorem C10_callsign_height {K : Type} [LinearOrderedField K]
    (rect : Rect K) (vm pm : Mat4 K) (e : CallsignEnt K) :
    callsignLabel rect vm pm e
      = labelFromScreen (worldToScreen rect vm pm
          ⟨e.position.x, e.position.y, callsignRadius e⟩) e.callsign ∧
    (∀ sz, e.physicsSize = some sz → callsignRadius e = sz.x) ∧
    (e.physicsSize = none → callsignRadius e = 300) := by
  refine ⟨rfl, ?_, ?_⟩
  · intro sz h
    simp [callsignRadius, h]
  · intro h
    simp [callsignRadius, h]

/-- Witness for C10 at a concrete input: an entity with physics size
(42, 7) gets label height 42; one with no physics gets 300; and on a
concrete entity the label factors through `labelFromScreen`. -/
theorem C10_callsign_height_witness :
    callsignLabel (⟨⟨0, 0⟩, ⟨800, 600⟩⟩ : Rect ℚ) identityMat identityMat
        ⟨"B", ⟨1, 2⟩, some ⟨42, 7⟩, false⟩
      = labelFromScreen (worldToScreen (⟨⟨0, 0⟩, ⟨800, 600⟩⟩ : Rect ℚ)
          identityMat identityMat
          ⟨1, 2, callsignRadius (⟨"B", ⟨1, 2⟩, some ⟨42, 7⟩, false⟩ : CallsignEnt ℚ)⟩)
          "B" ∧
    callsignRadius (⟨"B", ⟨1, 2⟩, some ⟨42, 7⟩, false⟩ : CallsignEnt ℚ) = 42 :=
  ⟨(C10_callsign_height (⟨⟨0, 0⟩, ⟨800, 600⟩⟩ : Rect ℚ) identityMat identityMat
      ⟨"B", ⟨1, 2⟩, some ⟨42, 7⟩, false⟩).1,
   (C10_callsign_height (⟨⟨0, 0⟩, ⟨800, 600⟩⟩ : Rect ℚ) identityMat identityMat
      ⟨"B", ⟨1, 2⟩, some ⟨42, 7⟩, false⟩).2.1 ⟨42, 7⟩ rfl⟩

/-- Claim C7: with impulse throttle 0 no particle is spawned and the
component is untouched, regardless of elapsed time; with nonzero
throttle, nothing happens unless more than 0.1 seconds have passed
since the last emission, in which case one particle per configured
emitter point is spawned (position = transform composed with the
rotated emitter offset, start = end point so velocity is zero, scale =
emitter scale times the absolute throttle, lifetime 5.0) and the
timestamp is stamped to the current time; consequently a second pass
within 0.1 seconds of an emission spawns nothing, whatever its
throttle. -/
theorem C7_engine_emission {K : Type} [LinearOrderedField K]
    (elapsed rotC rotS : K) (tpos : Vec2 K) (throttle : K)
    (ee : EngineEmitter K) :
    (throttle = 0 →
      emitEngineParticles elapsed rotC rotS tpos throttle ee = ([], ee)) ∧
    (throttle ≠ 0 → elapsed - ee.last_engine_particle_time ≤ 1 / 10 →
      emitEngineParticles elapsed rotC rotS tpos throttle ee = ([], ee)) ∧
    (throttle ≠ 0 → 1 / 10 < elapsed - ee.last_engine_particle_time →
      emitEngineParticles elapsed rotC rotS tpos throttle ee
        = (ee.emitters.map fun ed =>
            ⟨⟨(v2add tpos (rotateVec2 rotC rotS ⟨ed.position.x, ed.position.y⟩)).x,
              (v2add tpos (rotateVec2 rotC rotS ⟨ed.position.x, ed.position.y⟩)).y,
              ed.position.z⟩,
             ⟨(v2add tpos (rotateVec2 rotC rotS ⟨ed.position.x, ed.position.y⟩)).x,
              (v2add tpos (rotateVec2 rotC rotS ⟨ed.position.x, ed.position.y⟩)).y,
              ed.position.z⟩,
             ed.color, ed.color, ed.scale * |throttle|, 0, 5⟩,
           ⟨ee.emitters, elapsed⟩)) ∧
    (throttle ≠ 0 → 1 / 10 < elapsed - ee.last_engine_particle_time →
      ∀ t2 throttle2, t2 - elapsed ≤ 1 / 10 →
        (emitEngineParticles t2 rotC rotS tpos throttle2
          (emitEngineParticles elapsed rotC rotS tpos throttle ee).2).1 = []) := by
  have hzero : throttle = 0 →
      emitEngineParticles elapsed rotC rotS tpos throttle ee = ([], ee) := by
    intro h
    simp only [emitEngineParticles]
    rw [if_neg (not_ne_iff.mpr h)]
  have hskip : throttle ≠ 0 → elapsed - ee.last_engine_particle_time ≤ 1 / 10 →
      emitEngineParticles elapsed rotC rotS tpos throttle ee = ([], ee) := by
    intro h hle
    simp only [emitEngineParticles]
    rw [if_pos h, if_neg (not_lt.mpr hle)]
  have hemit : throttle ≠ 0 → 1 / 10 < elapsed - ee.last_engine_particle_time →
      emitEngineParticles elapsed rotC rotS tpos throttle ee
        = (ee.emitters.map fun ed =>
            ⟨⟨(v2add tpos (rotateVec2 rotC rotS ⟨ed.position.x, ed.position.y⟩)).x,
              (v2add tpos (rotateVec2 rotC rotS ⟨ed.position.x, ed.position.y⟩)).y,
              ed.position.z⟩,
             ⟨(v2add tpos (rotateVec2 rotC rotS ⟨ed.position.x, ed.position.y⟩)).x,
              (v2add tpos (rotateVec2 rotC rotS ⟨ed.position.x, ed.position.y⟩)).y,
              ed.position.z⟩,
             ed.color, ed.color, ed.scale * |throttle|, 0, 5⟩,
           ⟨ee.emitters, elapsed⟩) := by
    intro h hlt
    simp only [emitEngineParticles]
    rw [if_pos h, if_pos hlt]
  refine ⟨hzero, hskip, hemit, ?_⟩
  intro h hlt t2 throttle2 ht2
  rw [hemit h hlt]
  by_cases h2 : throttle2 = 0
  · simp only [emitEngineParticles]
    rw [if_neg (not_ne_iff.mpr h2)]
  · simp only [emitEngineParticles]
    rw [if_pos h2, if_neg (not_lt.mpr ht2)]

/-- Witness for C7 at a concrete input: throttle 2, one emitter at
offset (1,0,0) with scale 3, rotation 0, elapsed 1 versus last
emission 0: one particle at (11,20,0) with scale 6 and lifetime 5, and
the timestamp becomes 1. -/
theorem C7_engine_emission_witness :
    emitEngineParticles (1 : ℚ) 1 0 ⟨10, 20⟩ 2 ⟨[⟨⟨1, 0, 0⟩, ⟨1, 1, 1⟩, 3⟩], 0⟩
      = ([⟨⟨11, 20, 0⟩, ⟨11, 20, 0⟩, ⟨1, 1, 1⟩, ⟨1, 1, 1⟩, 6, 0, 5⟩],
         ⟨[⟨⟨1, 0, 0⟩, ⟨1, 1, 1⟩, 3⟩], 1⟩) := by
  have h := (C7_engine_emission (1 : ℚ) 1 0 ⟨10, 20⟩ 2
      ⟨[⟨⟨1, 0, 0⟩, ⟨1, 1, 1⟩, 3⟩], 0⟩).2.2.1 (by norm_num) (by norm_num)
  rw [h]
  norm_num [v2add, rotateVec2]

/-- Zones whose skybox is empty or whose outline does not contain the
camera's ground position are skipped by the selection loop. -/
theorem selectSkybox_skip {K : Type} [LinearOrderedField K]
    (inside : List (Vec2 K) → Vec2 K → Bool)
    (d2e : List (Vec2 K) → Vec2 K → K)
    (skybox_name : String) (cam : Vec2 K) (pre rest : List (ZoneEnt K))
    (hpre : ∀ z ∈ pre,
      z.skybox = "" ∨ inside z.outline (v2sub z.position cam) = false) :
    selectSkybox inside d2e skybox_name cam (pre ++ rest)
      = selectSkybox inside d2e skybox_name cam rest := by
  induction pre with
  | nil => rfl
  | cons z2 pre ih =>
    have htail : ∀ z ∈ pre,
        z.skybox = "" ∨ inside z.outline (v2sub z.position cam) = false :=
      fun z hz => hpre z (List.mem_cons_of_mem _ hz)
    rcases hpre z2 (List.mem_cons_self _ _) with h | h
    · simp only [List.cons_append, selectSkybox]
      rw [if_pos h]
      exact ih htail
    · simp only [List.cons_append, selectSkybox]
      by_cases he : z2.skybox = ""
      · rw [if_pos he]
        exact ih htail
      · rw [if_neg he, if_neg (by simp [h])]
        exact ih htail

/-- The first zone with a nonempty skybox whose outline contains the
camera's ground position determines the result of the selection loop:
its prefixed skybox name, and a blend factor of 1 when the fade
distance is nonpositive, else the clamped distance-to-edge ratio. -/
theorem selectSkybox_match {K : Type} [LinearOrderedField K]
    (inside : List (Vec2 K) → Vec2 K → Bool)
    (d2e : List (Vec2 K) → Vec2 K → K)
    (skybox_name : String) (cam : Vec2 K) (pre post : List (ZoneEnt K))
    (z : ZoneEnt K)
    (hpre : ∀ z2 ∈ pre,
      z2.skybox = "" ∨ inside z2.outline (v2sub z2.position cam) = false)
    (hz : ¬ z.skybox = "")
    (hin : inside z.outline (v2sub z.position cam) = true) :
    selectSkybox inside d2e skybox_name cam (pre ++ z :: post)
      = ("skybox/" ++ z.skybox,
         if z.skybox_fade_distance ≤ 0 then 1
         else clampK (d2e z.outline (v2sub z.position cam)
            / z.skybox_fade_distance) 0 1) := by
  rw [selectSkybox_skip inside d2e skybox_name cam pre _ hpre]
  simp only [selectSkybox]
  rw [if_neg hz, if_pos hin]

/-- Claim C3: among all zone entities with a nonempty skybox id, the
local skybox is taken from the first zone in query order whose outline
contains the camera's ground position, and once one matches, the zones
after it play no role: the result is unchanged under any replacement
of the tail. -/
theorem C3_first_match_zone {K : Type} [LinearOrderedField K]
    (inside : List (Vec2 K) → Vec2 K → Bool)
    (d2e : List (Vec2 K) → Vec2 K → K)
    (skybox_name : String) (cam : Vec2 K) (pre post : List (ZoneEnt K))
    (z : ZoneEnt K)
    (hpre : ∀ z2 ∈ pre,
      z2.skybox = "" ∨ inside z2.outline (v2sub z2.position cam) = false)
    (hz : ¬ z.skybox = "")
    (hin : inside z.outline (v2sub z.position cam) = true) :
    (selectSkybox inside d2e skybox_name cam (pre ++ z :: post)).1
        = "skybox/" ++ z.skybox ∧
    ∀ post2, selectSkybox inside d2e skybox_name cam (pre ++ z :: post)
        = selectSkybox inside d2e skybox_name cam (pre ++ z :: post2) := by
  refine ⟨?_, fun post2 => ?_⟩
  · rw [selectSkybox_match inside d2e skybox_name cam pre post z hpre hz hin]
  · rw [selectSkybox_match inside d2e skybox_name cam pre post z hpre hz hin,
      selectSkybox_match inside d2e skybox_name cam pre post2 z hpre hz hin]

/-- Witness for C3 at a concrete input: with a containment test that
always succeeds, a first zone with empty skybox is skipped, the second
zone ("nebula") wins, and the tail after it is irrelevant. -/
theorem C3_first_match_zone_witness :
    (selectSkybox (K := ℚ) (fun _ _ => true) (fun _ _ => 0) "skybox/default"
        ⟨0, 0⟩ ([⟨"", 5, [], ⟨0, 0⟩⟩] ++ ⟨"nebula", 0, [], ⟨1, 2⟩⟩ ::
          [⟨"other", 3, [], ⟨9, 9⟩⟩])).1 = "skybox/nebula" ∧
    selectSkybox (K := ℚ) (fun _ _ => true) (fun _ _ => 0) "skybox/default"
        ⟨0, 0⟩ ([⟨"", 5, [], ⟨0, 0⟩⟩] ++ ⟨"nebula", 0, [], ⟨1, 2⟩⟩ ::
          [⟨"other", 3, [], ⟨9, 9⟩⟩])
      = selectSkybox (K := ℚ) (fun _ _ => true) (fun _ _ => 0) "skybox/default"
        ⟨0, 0⟩ ([⟨"", 5, [], ⟨0, 0⟩⟩] ++ ⟨"nebula", 0, [], ⟨1, 2⟩⟩ :: []) := by
  have h := C3_first_match_zone (K := ℚ) (fun _ _ => true) (fun _ _ => 0)
    "skybox/default" ⟨0, 0⟩ [⟨"", 5, [], ⟨0, 0⟩⟩] [⟨"other", 3, [], ⟨9, 9⟩⟩]
    ⟨"nebula", 0, [], ⟨1, 2⟩⟩
    (by intro z2 h2; rw [List.mem_singleton] at h2; subst h2; exact Or.inl rfl)
    (by decide) rfl
  exact ⟨h.1, h.2 []⟩

/-- Claim C4: when the matching zone declares a positive fade distance
D, the blend factor is the camera's distance to the zone edge divided
by D, clamped to [0,1]; when the matching zone's fade distance is
nonpositive, the factor is exactly 1; and when no zone matches, the
local skybox equals the global skybox name and the factor is 0. -/
theorem C4_blend_factor {K : Type} [LinearOrderedField K]
    (inside : List (Vec2 K) → Vec2 K → Bool)
    (d2e : List (Vec2 K) → Vec2 K → K)
    (skybox_name : String) (cam : Vec2 K) (pre post zs : List (ZoneEnt K))
    (z : ZoneEnt K) :
    ((∀ z2 ∈ pre,
        z2.skybox = "" ∨ inside z2.outline (v2sub z2.position cam) = false) →
      ¬ z.skybox = "" → inside z.outline (v2sub z.position cam) = true →
      (0 < z.skybox_fade_distance →
        (selectSkybox inside d2e skybox_name cam (pre ++ z :: post)).2
          = clampK (d2e z.outline (v2sub z.position cam)
              / z.skybox_fade_distance) 0 1) ∧
      (z.skybox_fade_distance ≤ 0 →
        (selectSkybox inside d2e skybox_name cam (pre ++ z :: post)).2 = 1)) ∧
    ((∀ z2 ∈ zs,
        z2.skybox = "" ∨ inside z2.outline (v2sub z2.position cam) = false) →
      selectSkybox inside d2e skybox_name cam zs = (skybox_name, 0)) := by
  constructor
  · intro hpre hz hin
    constructor
    · intro hgt
      rw [selectSkybox_match inside d2e skybox_name cam pre post z hpre hz hin]
      simp only
      rw [if_neg (not_le.mpr hgt)]
    · intro hle
      rw [selectSkybox_match inside d2e skybox_name cam pre post z hpre hz hin]
      simp only
      rw [if_pos hle]
  · intro hall
    have h := selectSkybox_skip inside d2e skybox_name cam zs [] hall
    rw [List.append_nil] at h
    rw [h]
    rfl

/-- Witness for C4 at a concrete input: a matching zone with fade
distance 0 gives factor exactly 1, and with no zone at all the result
is the global name with factor 0. -/
theorem C4_blend_factor_witness :
    (selectSkybox (K := ℚ) (fun _ _ => true) (fun _ _ => 7) "skybox/default"
        ⟨0, 0⟩ ([] ++ ⟨"nebula", 0, [], ⟨1, 2⟩⟩ :: [])).2 = 1 ∧
    selectSkybox (K := ℚ) (fun _ _ => true) (fun _ _ => 7) "skybox/default"
        ⟨0, 0⟩ [] = ("skybox/default", 0) := by
  have h := C4_blend_factor (K := ℚ) (fun _ _ => true) (fun _ _ => 7)
    "skybox/default" ⟨0, 0⟩ [] [] [] ⟨"nebula", 0, [], ⟨1, 2⟩⟩
  exact ⟨(h.1 (by intro z2 h2; exact absurd h2 (List.not_mem_nil z2))
      (by decide) rfl).2 le_rfl,
    h.2 (by intro z2 h2; exact absurd h2 (List.not_mem_nil z2))⟩

/-- Claim C1 as stated is false on the code: a respawned particle is
placed at dust-center plus an independent uniform offset in
[-500,500] per axis, which need not lie in the [100,500] distance
shell, and the pass does not re-check it.  Concretely, a pair at
distance 1000 is respawned, and with random values 0 the new pair sits
at distance 0 < 100 from the dust center when the pass ends. -/
theorem C1_counterexample :
    ¬ (∀ q ∈ (dustUpdate (⟨0, 0, 0⟩ : Vec3 ℚ) (fun _ => 0)
          [(⟨1000, 0, 0⟩, ⟨1000, 0, 0⟩)] 0 false).1,
        100 * 100 ≤ length2 (v3sub q.1 ⟨0, 0, 0⟩) ∧
        length2 (v3sub q.1 ⟨0, 0, 0⟩) ≤ 500 * 500) := by
  intro h
  have hout : dustOutside (⟨0, 0, 0⟩ : Vec3 ℚ) (⟨1000, 0, 0⟩, ⟨1000, 0, 0⟩) :=
    Or.inl (by norm_num [length2, v3sub])
  have hres : (dustUpdate (⟨0, 0, 0⟩ : Vec3 ℚ) (fun _ => 0)
      [(⟨1000, 0, 0⟩, ⟨1000, 0, 0⟩)] 0 false).1
        = [(⟨0, 0, 0⟩, ⟨0, 0, 0⟩)] := by
    simp only [dustUpdate]
    rw [if_pos hout]
    norm_num [v3add, dustUpdate]
  have h0 := h (⟨0, 0, 0⟩, ⟨0, 0, 0⟩) (by rw [hres]; exact List.mem_singleton.mpr rfl)
  norm_num [length2, v3sub] at h0

/-- Claim C1, amended: after an update pass, every particle pair
either already lay within the [100,500] distance shell (strictly
inside the respawn test) and is returned unchanged as an element of
the input, or was respawned with both endpoints equal to dust-center
plus one random-stream value per axis; provided every random value
lies in [-500,500], such a respawned pair lies within the axis-aligned
cube of half-side 500 around the dust center — but not necessarily
within the [100,500] Euclidean shell. -/
theorem C1_amended_dust_shell {K : Type} [LinearOrderedField K]
    (center : Vec3 K) (rnd : Nat → K)
    (hr : ∀ i, -500 ≤ rnd i ∧ rnd i ≤ 500) :
    ∀ (ps : List (Vec3 K × Vec3 K)) (k : Nat) (d : Bool),
      ∀ q ∈ (dustUpdate center rnd ps k d).1,
        (¬ dustOutside center q ∧ q ∈ ps) ∨
        (q.1 = q.2 ∧ |q.1.x - center.x| ≤ 500 ∧ |q.1.y - center.y| ≤ 500 ∧
          |q.1.z - center.z| ≤ 500) := by
  intro ps
  induction ps with
  | nil =>
    intro k d q hq
    simp [dustUpdate] at hq
  | cons p rest ih =>
    intro k d q hq
    simp only [dustUpdate] at hq
    by_cases hout : dustOutside center p
    · rw [if_pos hout] at hq
      rcases List.mem_cons.mp hq with h | h
      · subst h
        refine Or.inr ⟨rfl, ?_, ?_, ?_⟩
        · simpa [v3add] using abs_le.mpr (hr k)
        · simpa [v3add] using abs_le.mpr (hr (k + 1))
        · simpa [v3add] using abs_le.mpr (hr (k + 2))
      · rcases ih (k + 3) true q h with ⟨hno, hmem⟩ | hright
        · exact Or.inl ⟨hno, List.mem_cons_of_mem _ hmem⟩
        · exact Or.inr hright
    · rw [if_neg hout] at hq
      rcases List.mem_cons.mp hq with h | h
      · subst h
        exact Or.inl ⟨hout, List.mem_cons_self _ _⟩
      · rcases ih k d q h with ⟨hno, hmem⟩ | hright
        · exact Or.inl ⟨hno, List.mem_cons_of_mem _ hmem⟩
        · exact Or.inr hright

/-- Witness for the amended C1 at a concrete input: the all-zero
random stream lies in [-500,500], and the concrete pair produced by
the pass (the respawned pair at the dust center) satisfies the amended
shell property. -/
theorem C1_amended_dust_shell_witness :
    (¬ dustOutside (⟨0, 0, 0⟩ : Vec3 ℚ)
        ((⟨0, 0, 0⟩ : Vec3 ℚ), (⟨0, 0, 0⟩ : Vec3 ℚ)) ∧
      ((⟨0, 0, 0⟩ : Vec3 ℚ), (⟨0, 0, 0⟩ : Vec3 ℚ)) ∈
        [((⟨1000, 0, 0⟩ : Vec3 ℚ), (⟨1000, 0, 0⟩ : Vec3 ℚ))]) ∨
    (((⟨0, 0, 0⟩ : Vec3 ℚ), (⟨0, 0, 0⟩ : Vec3 ℚ)).1
        = ((⟨0, 0, 0⟩ : Vec3 ℚ), (⟨0, 0, 0⟩ : Vec3 ℚ)).2 ∧
      |((⟨0, 0, 0⟩ : Vec3 ℚ), (⟨0, 0, 0⟩ : Vec3 ℚ)).1.x
          - (⟨0, 0, 0⟩ : Vec3 ℚ).x| ≤ 500 ∧
      |((⟨0, 0, 0⟩ : Vec3 ℚ), (⟨0, 0, 0⟩ : Vec3 ℚ)).1.y
          - (⟨0, 0, 0⟩ : Vec3 ℚ).y| ≤ 500 ∧
      |((⟨0, 0, 0⟩ : Vec3 ℚ), (⟨0, 0, 0⟩ : Vec3 ℚ)).1.z
          - (⟨0, 0, 0⟩ : Vec3 ℚ).z| ≤ 500) :=
  C1_amended_dust_shell (⟨0, 0, 0⟩ : Vec3 ℚ) (fun _ => 0)
    (fun i => by norm_num) [(⟨1000, 0, 0⟩, ⟨1000, 0, 0⟩)] 0 false
    ((⟨0, 0, 0⟩ : Vec3 ℚ), (⟨0, 0, 0⟩ : Vec3 ℚ))
    (by
      have hout : dustOutside (⟨0, 0, 0⟩ : Vec3 ℚ)
          (⟨1000, 0, 0⟩, ⟨1000, 0, 0⟩) :=
        Or.inl (by norm_num [length2, v3sub])
      simp only [dustUpdate]
      rw [if_pos hout]
      norm_num [v3add, dustUpdate])

/-- The dirty flag of the dust update is set exactly when it was set
on entry or some input pair fails the shell test. -/
theorem dustUpdate_dirty_iff {K : Type} [LinearOrderedField K]
    (center : Vec3 K) (rnd : Nat → K) :
    ∀ (ps : List (Vec3 K × Vec3 K)) (k : Nat) (d : Bool),
      ((dustUpdate center rnd ps k d).2.2 = true ↔
        d = true ∨ ∃ p ∈ ps, dustOutside center p) := by
  intro ps
  induction ps with
  | nil =>
    intro k d
    simp [dustUpdate]
  | cons p rest ih =>
    intro k d
    simp only [dustUpdate]
    by_cases hout : dustOutside center p
    · rw [if_pos hout]
      simp only [ih (k + 3) true]
      constructor
      · intro _
        exact Or.inr ⟨p, List.mem_cons_self _ _, hout⟩
      · intro _
        exact Or.inl trivial
    · rw [if_neg hout]
      rw [ih k d]
      constructor
      · rintro (h | ⟨q, hq, hqo⟩)
        · exact Or.inl h
        · exact Or.inr ⟨q, List.mem_cons_of_mem _ hq, hqo⟩
      · rintro (h | ⟨q, hq, hqo⟩)
        · exact Or.inl h
        · rcases List.mem_cons.mp hq with rfl | hq2
          · exact absurd hqo hout
          · exact Or.inr ⟨q, hq2, hqo⟩

/-- When every input pair passes the shell test, the dust update
leaves the particle list unchanged. -/
theorem dustUpdate_clean {K : Type} [LinearOrderedField K]
    (center : Vec3 K) (rnd : Nat → K) :
    ∀ (ps : List (Vec3 K × Vec3 K)) (k : Nat) (d : Bool),
      (∀ p ∈ ps, ¬ dustOutside center p) →
      (dustUpdate center rnd ps k d).1 = ps := by
  intro ps
  induction ps with
  | nil =>
    intro k d _
    rfl
  | cons p rest ih =>
    intro k d hall
    simp only [dustUpdate]
    rw [if_neg (hall p (List.mem_cons_self _ _))]
    simp only [List.cons.injEq, true_and]
    exact ih k d fun q hq => hall q (List.mem_cons_of_mem _ hq)

/-- Claim C8: in a space-dust frame, the GPU position buffer is
re-uploaded exactly when at least one particle pair failed the shell
test (and was therefore respawned) during the update pass; when no
pair changed, the buffer contents and the particle list are left
unchanged; when a re-upload happens, the buffer holds exactly the
flattened updated pairs. -/
theorem C8_dust_upload_iff {K : Type} [LinearOrderedField K]
    (center : Vec3 K) (vel : Vec2 K) (rnd : Nat → K) (st : DustState K) :
    ((∃ data, Effect.uploadDust data ∈ (spacedustPass center vel rnd st).1)
        ↔ ∃ p ∈ st.particles, dustOutside center p) ∧
    ((¬ ∃ p ∈ st.particles, dustOutside center p) →
      (spacedustPass center vel rnd st).2.buffer = st.buffer ∧
      (spacedustPass center vel rnd st).2.particles = st.particles) ∧
    ((∃ p ∈ st.particles, dustOutside center p) →
      (spacedustPass center vel rnd st).2.buffer
        = flattenPairs (spacedustPass center vel rnd st).2.particles) := by
  have hd := dustUpdate_dirty_iff center rnd st.particles 0 false
  simp only [Bool.false_eq_true, false_or] at hd
  by_cases hdirty : (dustUpdate center rnd st.particles 0 false).2.2 = true
  · have hex := hd.mp hdirty
    refine ⟨⟨fun _ => hex, fun _ => ?_⟩, fun hno => absurd hex hno, fun _ => ?_⟩
    · refine ⟨flattenPairs (dustUpdate center rnd st.particles 0 false).1, ?_⟩
      simp [spacedustPass, hdirty]
    · simp [spacedustPass, hdirty]
  · have hnex : ¬ ∃ p ∈ st.particles, dustOutside center p :=
      fun h => hdirty (hd.mpr h)
    have hb : (dustUpdate center rnd st.particles 0 false).2.2 = false :=
      Bool.eq_false_iff.mpr hdirty
    refine ⟨⟨?_, fun h => absurd h hnex⟩, fun _ => ?_, fun h => absurd h hnex⟩
    · rintro ⟨data, hmem⟩
      simp [spacedustPass, hb] at hmem
    · constructor
      · simp [spacedustPass, hb]
      · simp only [spacedustPass, hb]
        exact dustUpdate_clean center rnd st.particles 0 false
          fun p hp => fun ho => hnex ⟨p, hp, ho⟩

/-- Witness for C8 at a concrete input: a single pair at distance 200
from the dust center is inside the shell, so no upload effect is
emitted and buffer and particles are unchanged. -/
theorem C8_dust_upload_iff_witness :
    (spacedustPass (⟨0, 0, 0⟩ : Vec3 ℚ) ⟨0, 0⟩ (fun _ => 0)
        ⟨[(⟨200, 0, 0⟩, ⟨200, 0, 0⟩)], [⟨200, 0, 0⟩, ⟨200, 0, 0⟩]⟩).2.buffer
      = [⟨200, 0, 0⟩, ⟨200, 0, 0⟩] ∧
    (spacedustPass (⟨0, 0, 0⟩ : Vec3 ℚ) ⟨0, 0⟩ (fun _ => 0)
        ⟨[(⟨200, 0, 0⟩, ⟨200, 0, 0⟩)], [⟨200, 0, 0⟩, ⟨200, 0, 0⟩]⟩).2.particles
      = [(⟨200, 0, 0⟩, ⟨200, 0, 0⟩)] :=
  (C8_dust_upload_iff (⟨0, 0, 0⟩ : Vec3 ℚ) ⟨0, 0⟩ (fun _ => 0)
      ⟨[(⟨200, 0, 0⟩, ⟨200, 0, 0⟩)], [⟨200, 0, 0⟩, ⟨200, 0, 0⟩]⟩).2.1
    (by
      rintro ⟨p, hp, hout⟩
      rw [List.mem_singleton] at hp
      subst hp
      rcases hout with h | h <;> norm_num [length2, v3sub] at h)

/-- Claim C9: a render-target rectangle of zero width makes the frame
return before any effect is produced or any state is changed, and this
is the only early exit: with nonzero width the frame runs to
completion, its trace being nonempty and containing the final
viewport-restore effect. -/
theorem C9_zero_width_guard {K : Type} [LinearOrderedField K]
    (inp : DrawInput K) (st : DrawState K) :
    (inp.rect.size.x = 0 → onDraw inp st = ([], st)) ∧
    (inp.rect.size.x ≠ 0 →
      Effect.restoreViewport ∈ (onDraw inp st).1 ∧ (onDraw inp st).1 ≠ []) := by
  constructor
  · intro h
    simp only [onDraw]
    rw [if_pos h]
  · intro h
    simp only [onDraw]
    rw [if_neg h]
    constructor
    · simp [List.mem_append]
    · simp

/-- Witness for C9 at a concrete input: a frame whose rect has width 0
produces no effect and leaves the state untouched. -/
theorem C9_zero_width_guard_witness :
    onDraw (K := ℚ)
      ⟨⟨⟨0, 0⟩, ⟨0, 600⟩⟩, ⟨0, 0, 0⟩, 60, 1, 1, 0, 0, -1, true, "default",
        fun _ _ => true, fun _ _ => 0, [], 0, [], false, false, none, none,
        none, false, [], false, fun _ => ⟨1, 0⟩, fun _ => 0⟩
      ⟨⟨[], []⟩, []⟩ = ([], ⟨⟨[], []⟩, []⟩) :=
  (C9_zero_width_guard (K := ℚ)
      ⟨⟨⟨0, 0⟩, ⟨0, 600⟩⟩, ⟨0, 0, 0⟩, 60, 1, 1, 0, 0, -1, true, "default",
        fun _ _ => true, fun _ _ => 0, [], 0, [], false, false, none, none,
        none, false, [], false, fun _ => ⟨1, 0⟩, fun _ => 0⟩
      ⟨⟨[], []⟩, []⟩).1 rfl
